import Mathlib

/-!
# PatternPlay — verification of the configuration-resolution layer

Shallow embedding of the repository's Python sources:

* `src/core.py`   — `SchemaAnalytics._build_vars`, `SchemaAnalytics.generate_sql`
* `src/agent.py`  — `AgentMemory` (`add_recent_table`, `add_fact`, `_load`, `save`),
  `AgentTools.configure_growth_accounting`, `AnalyticsAgent._rule_based_response`
  (the column auto-detection loop and the keyword fallback parser).

Python dictionaries are modelled as association lists in insertion order (a
`dict` keeps insertion order and has unique keys); `d[k]` is an access that
raises `KeyError(k)` when `k` is absent, `d.get(k)` returns `None` when
absent, `d.get(k, dflt)` defaults.  Python truthiness of an optional string
(`None` and `""` are falsy) is modelled explicitly.
-/

namespace PatternPlay

/-- A value stored in the dbt variable payload: either a string or JSON
`null` (Python `None`, as produced by `dict.get` on a missing key). -/
inductive Value where
  | str (s : String)
  | null
deriving DecidableEq, Repr

/-- The raw parameter mapping `self.params`: an association list from
variable names to raw string values (insertion order, unique keys in
practice; lookup takes the first binding like a Python `dict`). -/
abbrev Params := List (String × String)

/-- Python `d.get(k)`: `None` when the key is absent. -/
def Params.get (p : Params) (k : String) : Option String :=
  (List.find? (fun kv => kv.1 = k) p).map (·.2)

/-- Python `d.get(k, dflt)`. -/
def Params.getD (p : Params) (k : String) (dflt : String) : String :=
  (p.get k).getD dflt

/-- Whether the mapping has the key at all (`k in d`). -/
def Params.hasKey (p : Params) (k : String) : Bool :=
  (p.get k).isSome

/-- Python truthiness of `d.get(k)`: `None` and the empty string are falsy. -/
def truthy : Option String → Bool
  | none => false
  | some s => s ≠ ""

/-- Errors `_build_vars` can raise: `KeyError(field)` from a `self.params[field]`
access on a missing key, or the explicit `ValueError` for an unknown pattern. -/
inductive BuildError where
  | keyError (field : String)
  | unknownPattern (pattern : String)
deriving DecidableEq, Repr

/-- Python `self.params[k]`: raises `KeyError(k)` when absent. -/
def Params.getItem (p : Params) (k : String) : Except BuildError String :=
  match p.get k with
  | some v => .ok v
  | none => .error (.keyError k)

/-- The JSON object handed to `json.dumps`: keys in insertion order. -/
abbrev Payload := List (String × Value)

/-- `dict.get` result used as a payload value: `None` becomes JSON `null`. -/
def optValue : Option String → Value
  | some s => .str s
  | none => .null

/-- Embedding of `SchemaAnalytics._build_vars` (src/core.py, lines 25–72):
builds the dbt `--vars` payload for the selected pattern. -/
def buildVars (pattern : String) (params : Params) : Except BuildError Payload :=
  if pattern = "growth_accounting" then
    (params.getItem "activity_table").bind fun at_ =>
    (params.getItem "activity_customer_id").bind fun cid =>
    (params.getItem "activity_timestamp").bind fun ts =>
    let base : Payload :=
      [("activity_table", .str at_),
       ("activity_customer_id", .str cid),
       ("activity_timestamp", .str ts),
       ("time_grain", .str (params.getD "time_grain" "MONTH"))]
    -- Optional params - only added when the *table* key is truthy.  Under the
    -- truthy guard the `self.params["..._table"]` access cannot raise, so it is
    -- rendered as `optValue (params.get ...)`; the companion keys really are
    -- read with `.get` in the source and may therefore be null.
    let base :=
      if truthy (params.get "first_activation_table") then
        base ++
          [("first_activation_table", optValue (params.get "first_activation_table")),
           ("first_activation_customer_id", optValue (params.get "first_activation_customer_id")),
           ("first_activation_timestamp", optValue (params.get "first_activation_timestamp"))]
      else base
    let base :=
      if truthy (params.get "date_spine_table") then
        base ++
          [("date_spine_table", optValue (params.get "date_spine_table")),
           ("date_spine_column", optValue (params.get "date_spine_column"))]
      else base
    .ok base
  else if pattern = "retention" then
    (params.getItem "source_table").bind fun st =>
    (params.getItem "customer_id").bind fun cid =>
    (params.getItem "activity_timestamp").bind fun ts =>
    .ok [("source_table", .str st),
         ("customer_id", .str cid),
         ("activity_timestamp", .str ts)]
  else if pattern = "cumulative_snapshot" then
    (params.getItem "snapshot_table").bind fun snap =>
    (params.getItem "fact_table").bind fun fact =>
    (params.getItem "key_column").bind fun key =>
    (params.getItem "period_column").bind fun per =>
    (params.getItem "prev_period").bind fun prev =>
    (params.getItem "curr_period").bind fun curr =>
    .ok [("snapshot_table", .str snap),
            ("fact_table", .str fact),
            ("key_column", .str key),
            ("period_column", .str per),
            ("prev_period", .str prev),
            ("curr_period", .str curr),
            ("metric_type", .str (params.getD "metric_type" "count")),
            ("metric_column", optValue (params.get "metric_column")),
            ("today_col_name", .str (params.getD "today_col_name" "today_value")),
            ("cumulative_col_name", .str (params.getD "cumulative_col_name" "cumulative_value"))]
  else
    .error (.unknownPattern pattern)

/-- The required fields of each supported pattern, in the order
`_build_vars` accesses them with `self.params[...]`. -/
def requiredFields (pattern : String) : List String :=
  if pattern = "growth_accounting" then
    ["activity_table", "activity_customer_id", "activity_timestamp"]
  else if pattern = "retention" then
    ["source_table", "customer_id", "activity_timestamp"]
  else if pattern = "cumulative_snapshot" then
    ["snapshot_table", "fact_table", "key_column", "period_column",
     "prev_period", "curr_period"]
  else []

/-- Whether a key occurs in a payload. -/
def Payload.hasKey (pl : Payload) (k : String) : Bool :=
  pl.any (fun kv => kv.1 = k)

/-- Lookup in a payload (first binding). -/
def Payload.get (pl : Payload) (k : String) : Option Value :=
  (List.find? (fun kv => kv.1 = k) pl).map (·.2)

/-! ## Basic lemmas about the parameter map -/

theorem getItem_of_hasKey {p : Params} {k : String} (h : p.hasKey k = true) :
    ∃ v, p.getItem k = .ok v := by
  unfold Params.hasKey Params.getItem at *
  cases hg : p.get k with
  | none => rw [hg] at h; simp at h
  | some v => exact ⟨v, rfl⟩

theorem getItem_of_not_hasKey {p : Params} {k : String} (h : p.hasKey k = false) :
    p.getItem k = .error (.keyError k) := by
  unfold Params.hasKey Params.getItem at *
  cases hg : p.get k with
  | none => rfl
  | some v => rw [hg] at h; simp at h

/-- Success of a fallible computation. -/
def exceptIsOk : Except ε α → Bool
  | .ok _ => true
  | .error _ => false

theorem exceptIsOk_iff {e : Except ε α} : exceptIsOk e = true ↔ ∃ v, e = .ok v := by
  cases e <;> simp [exceptIsOk]

end PatternPlay

namespace PatternPlay

/-- C1: for each supported pattern, supplying all required fields makes
`_build_vars` succeed; omitting exactly one required field makes it raise
`KeyError` naming that exact field. -/
theorem C1_required_fields_contract :
    ∀ pattern ∈ ["growth_accounting", "retention", "cumulative_snapshot"],
    ∀ params : Params,
      ((∀ f ∈ requiredFields pattern, params.hasKey f = true) →
        ∃ pl, buildVars pattern params = .ok pl) ∧
      (∀ f ∈ requiredFields pattern, params.hasKey f = false →
        (∀ g ∈ requiredFields pattern, g ≠ f → params.hasKey g = true) →
        buildVars pattern params = .error (.keyError f)) := by
  intro pattern hp params
  simp only [List.mem_cons, List.not_mem_nil, or_false] at hp
  rcases hp with rfl | rfl | rfl
  · constructor
    · intro h
      obtain ⟨v1, e1⟩ := getItem_of_hasKey (h "activity_table" (by simp [requiredFields]))
      obtain ⟨v2, e2⟩ := getItem_of_hasKey (h "activity_customer_id" (by simp [requiredFields]))
      obtain ⟨v3, e3⟩ := getItem_of_hasKey (h "activity_timestamp" (by simp [requiredFields]))
      rw [← exceptIsOk_iff]
      simp [buildVars, e1, e2, e3, Except.bind, exceptIsOk]
    · intro f hf hmiss hothers
      simp [requiredFields] at hf
      have mem1 : "activity_table" ∈ requiredFields "growth_accounting" := by simp [requiredFields]
      have mem2 : "activity_customer_id" ∈ requiredFields "growth_accounting" := by simp [requiredFields]
      rcases hf with rfl | rfl | rfl
      · simp [buildVars, getItem_of_not_hasKey hmiss, Except.bind]
      · obtain ⟨v1, e1⟩ := getItem_of_hasKey (hothers _ mem1 (by decide))
        simp [buildVars, e1, getItem_of_not_hasKey hmiss, Except.bind]
      · obtain ⟨v1, e1⟩ := getItem_of_hasKey (hothers _ mem1 (by decide))
        obtain ⟨v2, e2⟩ := getItem_of_hasKey (hothers _ mem2 (by decide))
        simp [buildVars, e1, e2, getItem_of_not_hasKey hmiss, Except.bind]
  · constructor
    · intro h
      obtain ⟨v1, e1⟩ := getItem_of_hasKey (h "source_table" (by simp [requiredFields]))
      obtain ⟨v2, e2⟩ := getItem_of_hasKey (h "customer_id" (by simp [requiredFields]))
      obtain ⟨v3, e3⟩ := getItem_of_hasKey (h "activity_timestamp" (by simp [requiredFields]))
      rw [← exceptIsOk_iff]
      simp [buildVars, e1, e2, e3, Except.bind, exceptIsOk]
    · intro f hf hmiss hothers
      simp [requiredFields] at hf
      have mem1 : "source_table" ∈ requiredFields "retention" := by simp [requiredFields]
      have mem2 : "customer_id" ∈ requiredFields "retention" := by simp [requiredFields]
      rcases hf with rfl | rfl | rfl
      · simp [buildVars, getItem_of_not_hasKey hmiss, Except.bind]
      · obtain ⟨v1, e1⟩ := getItem_of_hasKey (hothers _ mem1 (by decide))
        simp [buildVars, e1, getItem_of_not_hasKey hmiss, Except.bind]
      · obtain ⟨v1, e1⟩ := getItem_of_hasKey (hothers _ mem1 (by decide))
        obtain ⟨v2, e2⟩ := getItem_of_hasKey (hothers _ mem2 (by decide))
        simp [buildVars, e1, e2, getItem_of_not_hasKey hmiss, Except.bind]
  · constructor
    · intro h
      obtain ⟨v1, e1⟩ := getItem_of_hasKey (h "snapshot_table" (by simp [requiredFields]))
      obtain ⟨v2, e2⟩ := getItem_of_hasKey (h "fact_table" (by simp [requiredFields]))
      obtain ⟨v3, e3⟩ := getItem_of_hasKey (h "key_column" (by simp [requiredFields]))
      obtain ⟨v4, e4⟩ := getItem_of_hasKey (h "period_column" (by simp [requiredFields]))
      obtain ⟨v5, e5⟩ := getItem_of_hasKey (h "prev_period" (by simp [requiredFields]))
      obtain ⟨v6, e6⟩ := getItem_of_hasKey (h "curr_period" (by simp [requiredFields]))
      rw [← exceptIsOk_iff]
      simp [buildVars, e1, e2, e3, e4, e5, e6, Except.bind, exceptIsOk]
    · intro f hf hmiss hothers
      simp [requiredFields] at hf
      have mem1 : "snapshot_table" ∈ requiredFields "cumulative_snapshot" := by simp [requiredFields]
      have mem2 : "fact_table" ∈ requiredFields "cumulative_snapshot" := by simp [requiredFields]
      have mem3 : "key_column" ∈ requiredFields "cumulative_snapshot" := by simp [requiredFields]
      have mem4 : "period_column" ∈ requiredFields "cumulative_snapshot" := by simp [requiredFields]
      have mem5 : "prev_period" ∈ requiredFields "cumulative_snapshot" := by simp [requiredFields]
      rcases hf with rfl | rfl | rfl | rfl | rfl | rfl
      · simp [buildVars, getItem_of_not_hasKey hmiss, Except.bind]
      · obtain ⟨v1, e1⟩ := getItem_of_hasKey (hothers _ mem1 (by decide))
        simp [buildVars, e1, getItem_of_not_hasKey hmiss, Except.bind]
      · obtain ⟨v1, e1⟩ := getItem_of_hasKey (hothers _ mem1 (by decide))
        obtain ⟨v2, e2⟩ := getItem_of_hasKey (hothers _ mem2 (by decide))
        simp [buildVars, e1, e2, getItem_of_not_hasKey hmiss, Except.bind]
      · obtain ⟨v1, e1⟩ := getItem_of_hasKey (hothers _ mem1 (by decide))
        obtain ⟨v2, e2⟩ := getItem_of_hasKey (hothers _ mem2 (by decide))
        obtain ⟨v3, e3⟩ := getItem_of_hasKey (hothers _ mem3 (by decide))
        simp [buildVars, e1, e2, e3, getItem_of_not_hasKey hmiss, Except.bind]
      · obtain ⟨v1, e1⟩ := getItem_of_hasKey (hothers _ mem1 (by decide))
        obtain ⟨v2, e2⟩ := getItem_of_hasKey (hothers _ mem2 (by decide))
        obtain ⟨v3, e3⟩ := getItem_of_hasKey (hothers _ mem3 (by decide))
        obtain ⟨v4, e4⟩ := getItem_of_hasKey (hothers _ mem4 (by decide))
        simp [buildVars, e1, e2, e3, e4, getItem_of_not_hasKey hmiss, Except.bind]
      · obtain ⟨v1, e1⟩ := getItem_of_hasKey (hothers _ mem1 (by decide))
        obtain ⟨v2, e2⟩ := getItem_of_hasKey (hothers _ mem2 (by decide))
        obtain ⟨v3, e3⟩ := getItem_of_hasKey (hothers _ mem3 (by decide))
        obtain ⟨v4, e4⟩ := getItem_of_hasKey (hothers _ mem4 (by decide))
        obtain ⟨v5, e5⟩ := getItem_of_hasKey (hothers _ mem5 (by decide))
        simp [buildVars, e1, e2, e3, e4, e5, getItem_of_not_hasKey hmiss, Except.bind]

/-- C1 witness: a retention config with all three required fields resolves, and
dropping `activity_timestamp` raises `KeyError("activity_timestamp")`. -/
theorem C1_required_fields_contract_witness :
    (∃ pl, buildVars "retention"
      [("source_table", "s"), ("customer_id", "c"), ("activity_timestamp", "t")] = .ok pl) ∧
    buildVars "retention" [("source_table", "s"), ("customer_id", "c")] =
      .error (.keyError "activity_timestamp") := by
  constructor
  · exact (C1_required_fields_contract "retention" (by simp) _).1 (by decide)
  · exact (C1_required_fields_contract "retention" (by simp) _).2 "activity_timestamp"
      (by simp [requiredFields]) (by decide) (by decide)

end PatternPlay

namespace PatternPlay

/-! ## The agent's persistent memory (`AgentMemory`, src/agent.py lines 22–75)

The memory record has the four top-level keys `_load` initialises.  The
persisted file `.agent_memory.json` is modelled as `Option Memory`: `none`
when the file does not exist (or does not parse, which `_load` treats the
same way); the JSON round trip through `json.dump`/`json.load` on this
fixed record shape is modelled as faithful storage of the record. -/

/-- One element of the `facts` list: `{"fact": ..., "timestamp": ...}`. -/
structure FactEntry where
  fact : String
  timestamp : String
deriving DecidableEq, Repr

/-- The in-memory record `self.memory`. -/
structure Memory where
  preferences : List (String × String)
  recent_tables : List String
  recent_queries : List String
  facts : List FactEntry
deriving DecidableEq, Repr

/-- The default structure `_load` returns when the file is absent/corrupt. -/
def Memory.empty : Memory := ⟨[], [], [], []⟩

/-- An `AgentMemory` object together with the persisted file it writes. -/
structure AgentMemoryState where
  memory : Memory
  file : Option Memory
deriving DecidableEq, Repr

/-- A fresh `AgentMemory()` when no memory file exists yet. -/
def emptyState : AgentMemoryState := ⟨Memory.empty, none⟩

/-- `AgentMemory._load`: the file's record, or the default structure. -/
def load (file : Option Memory) : Memory := file.getD Memory.empty

/-- `AgentMemory.save`: writes the whole record to the file. -/
def save (st : AgentMemoryState) : AgentMemoryState := { st with file := some st.memory }

/-- `AgentMemory.add_recent_table` (src/agent.py lines 54–58): only when the
table is not already present, insert at the front, truncate to 10, save. -/
def add_recent_table (st : AgentMemoryState) (table : String) : AgentMemoryState :=
  if table ∈ st.memory.recent_tables then st
  else save { st with memory :=
    { st.memory with recent_tables := (table :: st.memory.recent_tables).take 10 } }

/-- `AgentMemory.add_fact` (src/agent.py lines 60–63): append, keep the last
20 (`[-20:]`, i.e. `List.rtake 20`), save.  The timestamp produced by
`datetime.now().isoformat()` is a parameter. -/
def add_fact (st : AgentMemoryState) (fact tstamp : String) : AgentMemoryState :=
  save { st with memory :=
    { st.memory with facts := (st.memory.facts ++ [FactEntry.mk fact tstamp]).rtake 20 } }

/-- A sequence of `add_fact` calls, each given its (fact, timestamp) pair. -/
def addFacts (st : AgentMemoryState) (l : List (String × String)) : AgentMemoryState :=
  l.foldl (fun s p => add_fact s p.1 p.2) st

/-- A sequence of `add_recent_table` calls. -/
def addTables (st : AgentMemoryState) (l : List String) : AgentMemoryState :=
  l.foldl add_recent_table st

/-! ### List lemmas for the `[-20:]` eviction -/

theorem rtake_of_length_le {l : List α} {n : Nat} (h : l.length ≤ n) :
    l.rtake n = l := by
  simp [List.rtake, Nat.sub_eq_zero_of_le h]

theorem length_rtake_le (l : List α) (n : Nat) : (l.rtake n).length ≤ n := by
  simp only [List.rtake, List.length_drop]
  omega

theorem rtake_rtake_append (n : Nat) (xs ys : List α) :
    ((xs.rtake n) ++ ys).rtake n = (xs ++ ys).rtake n := by
  simp only [List.rtake_eq_reverse_take_reverse, List.reverse_append, List.reverse_reverse]
  rw [List.take_append_eq_append_take, List.take_append_eq_append_take, List.take_take,
    Nat.min_eq_left (Nat.sub_le _ _)]

theorem getLast?_rtake_pos {l : List α} {n : Nat} (hn : 0 < n) :
    (l.rtake n).getLast? = l.getLast? := by
  cases l with
  | nil => simp
  | cons a tl =>
    rw [List.rtake, List.getLast?_drop, if_neg]
    simp only [List.length_cons]
    omega

/-- The facts list after a whole sequence of `add_fact` calls is the last-20
slice of everything ever appended. -/
theorem addFacts_facts (l : List (String × String)) (st : AgentMemoryState)
    (h : st.memory.facts.length ≤ 20) :
    (addFacts st l).memory.facts =
      (st.memory.facts ++ l.map fun p => FactEntry.mk p.1 p.2).rtake 20 := by
  induction l generalizing st with
  | nil => simpa [addFacts] using (rtake_of_length_le h).symm
  | cons p l ih =>
    have step : (add_fact st p.1 p.2).memory.facts =
        (st.memory.facts ++ [FactEntry.mk p.1 p.2]).rtake 20 := rfl
    have hlen : (add_fact st p.1 p.2).memory.facts.length ≤ 20 := by
      rw [step]; exact length_rtake_le _ _
    have hfold : addFacts st (p :: l) = addFacts (add_fact st p.1 p.2) l := rfl
    rw [hfold, ih _ hlen, step, rtake_rtake_append]
    simp

/-- A state whose file already mirrors its memory keeps that property under
any further `add_fact` calls. -/
theorem addFacts_file_saved (l : List (String × String)) (st : AgentMemoryState)
    (h : st.file = some st.memory) :
    (addFacts st l).file = some (addFacts st l).memory := by
  induction l generalizing st with
  | nil => exact h
  | cons p tl ih => exact ih (add_fact st p.1 p.2) rfl

/-- C8: after `add_fact("x")` the reloaded facts list ends in `"x"`; after 21
`add_fact` calls on an initially empty store the persisted facts list has
length exactly 20 and holds the 20 most recent facts (oldest evicted). -/
theorem C8_facts_roundtrip_and_bound (st : AgentMemoryState) (x tstamp : String)
    (l : List (String × String)) (hl : l.length = 21) :
    ((load (add_fact st x tstamp).file).facts.getLast?).map (·.fact) = some x ∧
    (load (addFacts emptyState l).file).facts.length = 20 ∧
    (load (addFacts emptyState l).file).facts.map (·.fact) = (l.map (·.1)).drop 1 := by
  have hload : load (addFacts emptyState l).file = (addFacts emptyState l).memory := by
    cases l with
    | nil => simp at hl
    | cons p tl =>
      have hfile := addFacts_file_saved tl (add_fact emptyState p.1 p.2) rfl
      have hfold : addFacts emptyState (p :: tl) = addFacts (add_fact emptyState p.1 p.2) tl := rfl
      rw [hfold, hfile]
      rfl
  have hfacts : (addFacts emptyState l).memory.facts =
      (l.map fun p => FactEntry.mk p.1 p.2).drop 1 := by
    rw [addFacts_facts l emptyState (by simp [emptyState, Memory.empty])]
    have hlen : (l.map fun p => FactEntry.mk p.1 p.2).length = 21 := by simp [hl]
    simp only [emptyState, Memory.empty, List.nil_append, List.rtake, hlen]
  refine ⟨?_, ?_, ?_⟩
  · have h1 : load (add_fact st x tstamp).file = (add_fact st x tstamp).memory := rfl
    have h2 : (add_fact st x tstamp).memory.facts =
        (st.memory.facts ++ [FactEntry.mk x tstamp]).rtake 20 := rfl
    rw [h1, h2, getLast?_rtake_pos (by norm_num), List.getLast?_concat]
    rfl
  · rw [hload, hfacts]
    simp [hl]
  · rw [hload, hfacts]
    simp only [List.map_drop, List.map_map]
    rfl

/-- C8 witness: the round trip and the 20-bound at a concrete run of 21
`add_fact` calls `f1 … f21`. -/
theorem C8_facts_roundtrip_and_bound_witness :
    ((load (add_fact emptyState "x" "t0").file).facts.getLast?).map (·.fact) = some "x" ∧
    (load (addFacts emptyState
      [("f1", "t"), ("f2", "t"), ("f3", "t"), ("f4", "t"), ("f5", "t"), ("f6", "t"),
       ("f7", "t"), ("f8", "t"), ("f9", "t"), ("f10", "t"), ("f11", "t"), ("f12", "t"),
       ("f13", "t"), ("f14", "t"), ("f15", "t"), ("f16", "t"), ("f17", "t"), ("f18", "t"),
       ("f19", "t"), ("f20", "t"), ("f21", "t")]).file).facts.length = 20 ∧
    (load (addFacts emptyState
      [("f1", "t"), ("f2", "t"), ("f3", "t"), ("f4", "t"), ("f5", "t"), ("f6", "t"),
       ("f7", "t"), ("f8", "t"), ("f9", "t"), ("f10", "t"), ("f11", "t"), ("f12", "t"),
       ("f13", "t"), ("f14", "t"), ("f15", "t"), ("f16", "t"), ("f17", "t"), ("f18", "t"),
       ("f19", "t"), ("f20", "t"), ("f21", "t")]).file).facts.map (·.fact) =
      (([("f1", "t"), ("f2", "t"), ("f3", "t"), ("f4", "t"), ("f5", "t"), ("f6", "t"),
         ("f7", "t"), ("f8", "t"), ("f9", "t"), ("f10", "t"), ("f11", "t"), ("f12", "t"),
         ("f13", "t"), ("f14", "t"), ("f15", "t"), ("f16", "t"), ("f17", "t"), ("f18", "t"),
         ("f19", "t"), ("f20", "t"), ("f21", "t")] : List (String × String)).map (·.1)).drop 1 :=
  C8_facts_roundtrip_and_bound emptyState "x" "t0" _ (by decide)

/-! ### `recent_tables` (claim C9) -/

/-- C9 counterexample: after the calls `add_recent_table("a")`,
`add_recent_table("b")`, `add_recent_table("a")` the list is `["b", "a"]` —
the table of the latest call is *not* at the front, because a table that is
already present is left where it is. -/
theorem C9_counterexample :
    (addTables emptyState ["a", "b", "a"]).memory.recent_tables = ["b", "a"] ∧
    (["b", "a"] : List String).head? ≠ some "a" := by
  refine ⟨by decide, by decide⟩

/-- One `add_recent_table` call preserves dedup and the 10-bound. -/
theorem add_recent_table_inv {st : AgentMemoryState}
    (h : st.memory.recent_tables.Nodup ∧ st.memory.recent_tables.length ≤ 10)
    (t : String) :
    (add_recent_table st t).memory.recent_tables.Nodup ∧
    (add_recent_table st t).memory.recent_tables.length ≤ 10 := by
  unfold add_recent_table
  by_cases hm : t ∈ st.memory.recent_tables
  · simpa [hm] using h
  · simp only [hm, if_neg, if_false, save]
    constructor
    · exact List.Nodup.sublist (List.take_sublist _ _) (List.nodup_cons.mpr ⟨hm, h.1⟩)
    · simp only [List.length_take]
      exact Nat.min_le_left 10 _

theorem addTables_inv (tables : List String) (st : AgentMemoryState)
    (h : st.memory.recent_tables.Nodup ∧ st.memory.recent_tables.length ≤ 10) :
    (addTables st tables).memory.recent_tables.Nodup ∧
    (addTables st tables).memory.recent_tables.length ≤ 10 := by
  induction tables generalizing st with
  | nil => exact h
  | cons t tl ih => exact ih (add_recent_table st t) (add_recent_table_inv h t)

/-- C9 amended: after any sequence of `add_recent_table` calls from an empty
store the list is de-duplicated and has length at most 10; a call with a table
not yet present puts it at the front (truncating to 10), while a call with a
table already present leaves the list unchanged — it is *not* moved to the
front. -/
theorem C9_amended_recent_tables (tables : List String) (t : String) :
    ((addTables emptyState tables).memory.recent_tables.Nodup ∧
     (addTables emptyState tables).memory.recent_tables.length ≤ 10) ∧
    (t ∉ (addTables emptyState tables).memory.recent_tables →
      (add_recent_table (addTables emptyState tables) t).memory.recent_tables =
        (t :: (addTables emptyState tables).memory.recent_tables).take 10) ∧
    (t ∈ (addTables emptyState tables).memory.recent_tables →
      (add_recent_table (addTables emptyState tables) t).memory.recent_tables =
        (addTables emptyState tables).memory.recent_tables) := by
  refine ⟨addTables_inv tables emptyState (by simp [emptyState, Memory.empty]), ?_, ?_⟩
  · intro hnm
    simp [add_recent_table, hnm, save]
  · intro hm
    simp [add_recent_table, hm]

/-- C9 witness: a fresh table goes to the front. -/
theorem C9_amended_recent_tables_witness :
    (add_recent_table (addTables emptyState ["a"]) "b").memory.recent_tables =
      ("b" :: (addTables emptyState ["a"]).memory.recent_tables).take 10 :=
  (C9_amended_recent_tables ["a"] "b").2.1 (by decide)

/-! ### `configure_growth_accounting` (claim C10) -/

/-- The `{"success": ..., "config": ...}` dictionary the tool returns. -/
structure ToolResponse where
  success : Bool
  config : List (String × String)
deriving DecidableEq, Repr

/-- The `config` dictionary built by `configure_growth_accounting`. -/
def growthAccountingConfig
    (activity_table customer_id_column timestamp_column time_grain : String) :
    List (String × String) :=
  [("pattern", "growth_accounting"),
   ("activity_table", activity_table),
   ("activity_customer_id", customer_id_column),
   ("activity_timestamp", timestamp_column),
   ("time_grain", time_grain)]

/-- Embedding of `AgentTools.configure_growth_accounting` (src/agent.py
lines 133–151): records the table in memory and returns a success response
echoing its arguments; no lookup or validation happens. -/
def configure_growth_accounting (st : AgentMemoryState)
    (activity_table customer_id_column timestamp_column : String)
    (time_grain : String := "MONTH") : AgentMemoryState × ToolResponse :=
  (add_recent_table st activity_table,
   { success := true,
     config := growthAccountingConfig
       activity_table customer_id_column timestamp_column time_grain })

/-- C10: `configure_growth_accounting` is total and never fails — for all
string arguments (empty or pointing at nothing) it returns `success = true`
and a config with exactly the keys `pattern`, `activity_table`,
`activity_customer_id`, `activity_timestamp`, `time_grain`, copying the
arguments through unvalidated. -/
theorem C10_configure_growth_accounting_total (st : AgentMemoryState)
    (a c t g : String) :
    (configure_growth_accounting st a c t g).2.success = true ∧
    (configure_growth_accounting st a c t g).2.config =
      [("pattern", "growth_accounting"), ("activity_table", a),
       ("activity_customer_id", c), ("activity_timestamp", t), ("time_grain", g)] :=
  ⟨rfl, rfl⟩

end PatternPlay

namespace PatternPlay

/-! ## Column auto-detection and the keyword fallback parser
(`AnalyticsAgent._rule_based_response`, src/agent.py lines 394–459) -/

/-- A column descriptor `{name, type}` as returned by `get_table_schema`. -/
structure Column where
  name : String
  type : String
deriving DecidableEq, Repr

/-- Python substring test `pat in s`, on character lists. -/
def containsSub : List Char → List Char → Bool
  | [], pat => pat.isEmpty
  | s@(_ :: rest), pat => pat.isPrefixOf s || containsSub rest pat

/-- Python `str.lower()` (the identifiers in play are ASCII). -/
def lowerChars (s : String) : List Char := s.data.map Char.toLower

/-- The customer-id candidate substrings, in source order. -/
def cidPatterns : List String := ["user_id", "customer_id", "id"]

/-- The accepted timestamp column types. -/
def timeTypes : List String := ["TIMESTAMP", "DATETIME", "DATE"]

/-- Python truthiness `not x` of the loop accumulators (`None` or `""`). -/
def falsyOpt : Option String → Bool
  | none => true
  | some s => s == ""

/-- `any(x in name_lower for x in ["user_id", "customer_id", "id"])`. -/
def cidMatch (c : Column) : Bool :=
  cidPatterns.any fun x => containsSub (lowerChars c.name) x.data

/-- `col["type"] in ["TIMESTAMP", "DATETIME", "DATE"]`. -/
def isTimeType (c : Column) : Bool := timeTypes.contains c.type

/-- The `for col in schema:` auto-detection loop (src/agent.py lines
433–438), with both accumulators explicit. -/
def detectLoop : List Column → Option String → Option String → Option String × Option String
  | [], cid, ts => (cid, ts)
  | c :: rest, cid, ts =>
    let cid := if falsyOpt cid && cidMatch c then some c.name else cid
    let ts := if falsyOpt ts && isTimeType c then some c.name else ts
    detectLoop rest cid ts

/-- Column auto-detection: the loop started from `customer_id = None`,
`timestamp = None`. -/
def detectColumns (schema : List Column) : Option String × Option String :=
  detectLoop schema none none

/-! ### Characterising the loop -/

theorem detectLoop_fst_stay : ∀ (schema : List Column) (cid ts : Option String),
    falsyOpt cid = false → (detectLoop schema cid ts).1 = cid
  | [], _, _, _ => rfl
  | c :: rest, cid, ts, h => by
    simp only [detectLoop, h, Bool.false_and, Bool.false_eq_true, if_false]
    exact detectLoop_fst_stay rest cid _ h

theorem detectLoop_snd_stay : ∀ (schema : List Column) (cid ts : Option String),
    falsyOpt ts = false → (detectLoop schema cid ts).2 = ts
  | [], _, _, _ => rfl
  | c :: rest, cid, ts, h => by
    simp only [detectLoop, h, Bool.false_and, Bool.false_eq_true, if_false]
    exact detectLoop_snd_stay rest _ ts h

theorem detectLoop_fst_none (schema : List Column) (ts : Option String)
    (hnames : ∀ c ∈ schema, c.name ≠ "") :
    (detectLoop schema none ts).1 = (schema.find? cidMatch).map (·.name) := by
  induction schema generalizing ts with
  | nil => rfl
  | cons c rest ih =>
    by_cases hm : cidMatch c
    · have hfal : falsyOpt (some c.name) = false := by
        simp [falsyOpt]
        exact hnames c (by simp)
      simp only [detectLoop, falsyOpt, hm, Bool.true_and, if_true, List.find?_cons_of_pos _ hm,
        Option.map_some]
      simpa using detectLoop_fst_stay rest (some c.name) _ hfal
    · simp only [detectLoop, falsyOpt, hm, Bool.true_and, Bool.and_false, if_false,
        List.find?_cons_of_neg _ hm]
      exact ih _ fun c hc => hnames c (List.mem_cons_of_mem _ hc)

theorem detectLoop_snd_none (schema : List Column) (cid : Option String)
    (hnames : ∀ c ∈ schema, c.name ≠ "") :
    (detectLoop schema cid none).2 = (schema.find? isTimeType).map (·.name) := by
  induction schema generalizing cid with
  | nil => rfl
  | cons c rest ih =>
    by_cases hm : isTimeType c
    · have hfal : falsyOpt (some c.name) = false := by
        simp [falsyOpt]
        exact hnames c (by simp)
      simp only [detectLoop, falsyOpt, hm, Bool.true_and, if_true, List.find?_cons_of_pos _ hm,
        Option.map_some]
      simpa using detectLoop_snd_stay rest _ (some c.name) hfal
    · simp only [detectLoop, falsyOpt, hm, Bool.true_and, Bool.and_false, if_false,
        List.find?_cons_of_neg _ hm]
      exact ih _ fun c hc => hnames c (List.mem_cons_of_mem _ hc)

theorem detectLoop_snd_no_time : ∀ (schema : List Column) (cid : Option String),
    (∀ c ∈ schema, isTimeType c = false) → (detectLoop schema cid none).2 = none
  | [], _, _ => rfl
  | c :: rest, cid, h => by
    have hc : isTimeType c = false := h c (by simp)
    simp only [detectLoop, hc, Bool.and_false, Bool.false_eq_true, if_false]
    exact detectLoop_snd_no_time rest _ fun c hc => h c (List.mem_cons_of_mem _ hc)

/-- C4 counterexample: on the spec's own example column list the detection
loop picks `"id"` (the first column, which contains the substring `id`), not
`"user_id"` as the claimed pattern-priority order would. -/
theorem C4_counterexample :
    (detectColumns [⟨"id", "STRING"⟩, ⟨"user_id", "STRING"⟩,
      ⟨"event_time", "TIMESTAMP"⟩]).1 = some "id" ∧
    (some "id" : Option String) ≠ some "user_id" := by
  refine ⟨by decide, by decide⟩

/-- C4 amended: customer-id detection scans columns in *column* order and
selects the first column whose lowercased name contains any of the three
candidate substrings `user_id`, `customer_id`, `id`; on the spec's example
it therefore returns `"id"`. -/
theorem C4_amended_customer_id :
    (∀ schema : List Column, (∀ c ∈ schema, c.name ≠ "") →
      (detectColumns schema).1 = (schema.find? cidMatch).map (·.name)) ∧
    (detectColumns [⟨"id", "STRING"⟩, ⟨"user_id", "STRING"⟩,
      ⟨"event_time", "TIMESTAMP"⟩]).1 = some "id" := by
  constructor
  · intro schema h
    exact detectLoop_fst_none schema none h
  · decide

/-- C4 witness: the column-order characterisation evaluated on the spec's
example list. -/
theorem C4_amended_customer_id_witness :
    (detectColumns [⟨"id", "STRING"⟩, ⟨"user_id", "STRING"⟩,
        ⟨"event_time", "TIMESTAMP"⟩]).1 =
      (([⟨"id", "STRING"⟩, ⟨"user_id", "STRING"⟩,
          ⟨"event_time", "TIMESTAMP"⟩] : List Column).find? cidMatch).map (·.name) :=
  C4_amended_customer_id.1 _ (by decide)

/-- The timestamp-candidate name substrings in the spec's priority order.
Modelled from the spec: this list appears nowhere in src/agent.py. -/
def tsNamePatterns : List String :=
  ["event_time", "created_at", "timestamp", "event_timestamp",
   "activity_timestamp", "created", "date", "event_date", "activity_date", "time"]

/-- Modelled from the spec (§4.2, steps 2–3), for comparison with the source
loop: scan the name-substring priority list, accepting only time-typed
columns, then fall back to the first time-typed column. -/
def specDetectTimestamp (schema : List Column) : Option String :=
  match tsNamePatterns.findSome? (fun pat =>
      (schema.find? fun c =>
        containsSub (lowerChars c.name) pat.data && isTimeType c).map (·.name)) with
  | some n => some n
  | none => (schema.find? isTimeType).map (·.name)

/-- C5 counterexample: with a `TIMESTAMP` column `modified_at` (no name-list
match) before `event_time` (top-priority name match), the code picks
`modified_at` while the claimed name-priority algorithm picks `event_time`. -/
theorem C5_counterexample :
    (detectColumns [⟨"modified_at", "TIMESTAMP"⟩, ⟨"event_time", "TIMESTAMP"⟩]).2 =
      some "modified_at" ∧
    specDetectTimestamp [⟨"modified_at", "TIMESTAMP"⟩, ⟨"event_time", "TIMESTAMP"⟩] =
      some "event_time" ∧
    (some "modified_at" : Option String) ≠ some "event_time" := by
  refine ⟨by decide, by decide, by decide⟩

/-- C5 amended: timestamp detection ignores column names entirely — it
returns the first column (in column order) whose declared type is
`TIMESTAMP`/`DATETIME`/`DATE`, and `None` when no column of those types
exists. -/
theorem C5_amended_timestamp :
    (∀ schema : List Column, (∀ c ∈ schema, c.name ≠ "") →
      (detectColumns schema).2 = (schema.find? isTimeType).map (·.name)) ∧
    (∀ schema : List Column, (∀ c ∈ schema, isTimeType c = false) →
      (detectColumns schema).2 = none) := by
  constructor
  · intro schema h
    exact detectLoop_snd_none schema none h
  · intro schema h
    exact detectLoop_snd_no_time schema none h

/-- C5 witness: the type-only characterisation evaluated on a list whose
first time-typed column is second, plus the no-time-column case. -/
theorem C5_amended_timestamp_witness :
    (detectColumns [⟨"user_id", "STRING"⟩, ⟨"created", "DATE"⟩]).2 =
      (([⟨"user_id", "STRING"⟩, ⟨"created", "DATE"⟩] : List Column).find?
        isTimeType).map (·.name) ∧
    (detectColumns [⟨"user_id", "STRING"⟩, ⟨"amount", "FLOAT"⟩]).2 = none :=
  ⟨C5_amended_timestamp.1 _ (by decide), C5_amended_timestamp.2 _ (by decide)⟩

/-! ### The keyword fallback parser (claim C7) -/

/-- Python regex `\w` (ASCII range; the identifiers in play are ASCII). -/
def isWordChar (c : Char) : Bool := c.isAlphanum || c == '_'

/-- One attempt of `(\w+)\.(\w+)` anchored at the start of `s`: a maximal
run of word characters, a literal dot, another nonempty run.  (The greedy
`\w+` cannot usefully backtrack: any shorter first group would have to
match `.` against a word character.) -/
def matchWordDotWord (s : List Char) : Option (String × String) :=
  let w1 := s.takeWhile isWordChar
  if w1.isEmpty then none
  else
    match s.drop w1.length with
    | '.' :: rest =>
      let w2 := rest.takeWhile isWordChar
      if w2.isEmpty then none else some (⟨w1⟩, ⟨w2⟩)
    | _ => none

/-- `re.search(r'(\w+)\.(\w+)', message)`: the leftmost position at which
the attempt succeeds. -/
def findTableRef : List Char → Option (String × String)
  | [] => none
  | s@(_ :: rest) =>
    match matchWordDotWord s with
    | some r => some r
    | none => findTableRef rest

/-- Embedding of the fallback parser `_rule_based_response` (src/agent.py
lines 394–459), restricted to the `suggested_config` it produces; the chat
text it also builds plays no role in any claim.  `getSchema` stands for
`get_table_schema` (success with a column list, or failure). -/
def ruleBasedConfig (getSchema : String → String → Option (List Column))
    (message : String) : Option (List (String × String)) :=
  let ml := lowerChars message
  if ["list", "explore", "what tables", "datasets"].any (fun w => containsSub ml w.data) then
    none
  else if ["help", "how", "what can"].any (fun w => containsSub ml w.data) then
    none
  else
    match findTableRef message.data with
    | none => none
    | some (dataset, table) =>
      match getSchema dataset table with
      | none => none
      | some schema =>
        match detectColumns schema with
        | (some customer_id, some timestamp) =>
          -- `if customer_id and timestamp:` — Python truthiness
          if customer_id ≠ "" ∧ timestamp ≠ "" then
            some (growthAccountingConfig (dataset ++ "." ++ table)
              customer_id timestamp "MONTH")
          else none
        | _ => none

/-- C7 counterexample: a message containing `daily` still yields a suggested
configuration with `time_grain = MONTH`; the fallback parser never extracts
a time grain. -/
theorem C7_counterexample :
    containsSub (lowerChars "run daily growth for sessions.user_activity")
      ("daily").data = true ∧
    ruleBasedConfig
      (fun d t => if d == "sessions" && t == "user_activity" then
          some [⟨"user_id", "STRING"⟩, ⟨"event_time", "TIMESTAMP"⟩] else none)
      "run daily growth for sessions.user_activity" =
      some (growthAccountingConfig "sessions.user_activity" "user_id" "event_time" "MONTH") ∧
    Params.get (growthAccountingConfig "sessions.user_activity" "user_id" "event_time" "MONTH")
      "time_grain" = some "MONTH" ∧
    ("MONTH" : String) ≠ "DAY" := by
  refine ⟨by decide, by decide, by decide, by decide⟩

/-- C7 amended: the rule-based parser performs no time-grain extraction at
all — whatever the message says, any configuration it suggests carries
`time_grain = MONTH`. -/
theorem C7_amended_time_grain (getSchema : String → String → Option (List Column))
    (message : String) (cfg : List (String × String))
    (h : ruleBasedConfig getSchema message = some cfg) :
    Params.get cfg "time_grain" = some "MONTH" := by
  by_cases hk1 : (["list", "explore", "what tables", "datasets"].any fun w =>
      containsSub (lowerChars message) w.data) = true
  · simp [ruleBasedConfig, hk1] at h
  by_cases hk2 : (["help", "how", "what can"].any fun w =>
      containsSub (lowerChars message) w.data) = true
  · simp [ruleBasedConfig, hk1, hk2] at h
  cases htr : findTableRef message.data with
  | none => simp [ruleBasedConfig, hk1, hk2, htr] at h
  | some p =>
    obtain ⟨dataset, table⟩ := p
    cases hgs : getSchema dataset table with
    | none => simp [ruleBasedConfig, hk1, hk2, htr, hgs] at h
    | some schema =>
      cases hdc : detectColumns schema with
      | mk cid ts =>
        cases cid with
        | none => simp [ruleBasedConfig, hk1, hk2, htr, hgs, hdc] at h
        | some c =>
          cases ts with
          | none => simp [ruleBasedConfig, hk1, hk2, htr, hgs, hdc] at h
          | some t =>
            by_cases hct : c ≠ "" ∧ t ≠ ""
            · simp [ruleBasedConfig, hk1, hk2, htr, hgs, hdc, hct] at h
              subst h
              simp [growthAccountingConfig, Params.get]
            · simp [ruleBasedConfig, hk1, hk2, htr, hgs, hdc, hct] at h

/-- C7 witness: the no-grain-extraction rule applied at a concrete message
and schema. -/
theorem C7_amended_time_grain_witness :
    Params.get (growthAccountingConfig "sessions.user_activity" "user_id" "event_time" "MONTH")
      "time_grain" = some "MONTH" :=
  C7_amended_time_grain
    (fun d t => if d == "sessions" && t == "user_activity" then
        some [⟨"user_id", "STRING"⟩, ⟨"event_time", "TIMESTAMP"⟩] else none)
    "run growth for sessions.user_activity" _ (by decide)

end PatternPlay

namespace PatternPlay

/-! ## Serialisation of the payload (`json.dumps`, src/core.py line 72)

Default `json.dumps` formatting: keys in insertion order, separators
`", "` and `": "`, `None` rendered as `null`.  Only the printable-ASCII
escapes matter for the identifiers in play. -/

/-- `json.dumps` escaping of one string character. -/
def jsonEscapeChar (c : Char) : String :=
  if c = '"' then "\\\""
  else if c = '\\' then "\\\\"
  else if c = '\n' then "\\n"
  else if c = '\t' then "\\t"
  else if c = '\r' then "\\r"
  else String.singleton c

/-- `json.dumps` escaping of a string body. -/
def jsonEscape (s : String) : String := String.join (s.data.map jsonEscapeChar)

/-- A payload value as JSON text. -/
def serializeValue : Value → String
  | .str s => "\"" ++ jsonEscape s ++ "\""
  | .null => "null"

/-- `json.dumps(payload)`. -/
def serializePayload (pl : Payload) : String :=
  "\x7b" ++ String.intercalate ", "
    (pl.map fun kv => "\"" ++ jsonEscape kv.1 ++ "\": " ++ serializeValue kv.2) ++ "\x7d"

/-! ### Claim C2: the optional groups of growth accounting -/

/-- A growth-accounting parameter map supplying the required fields plus
only the `first_activation_table` member of the activation group. -/
def gaPartialParams : Params :=
  [("activity_table", "t"), ("activity_customer_id", "c"),
   ("activity_timestamp", "ts"), ("first_activation_table", "fa")]

/-- The payload `_build_vars` produces for `gaPartialParams`. -/
def gaPartialPayload : Payload :=
  [("activity_table", .str "t"), ("activity_customer_id", .str "c"),
   ("activity_timestamp", .str "ts"), ("time_grain", .str "MONTH"),
   ("first_activation_table", .str "fa"),
   ("first_activation_customer_id", .null), ("first_activation_timestamp", .null)]

/-- C2 counterexample: supplying only `first_activation_table` yields a
payload in which that key is present and non-null while the two companion
keys are present with value `null` — the group is neither all present
non-null nor all absent. -/
theorem C2_counterexample :
    buildVars "growth_accounting" gaPartialParams = .ok gaPartialPayload ∧
    ¬ ((gaPartialPayload.hasKey "first_activation_table" = true ∧
        gaPartialPayload.get "first_activation_table" ≠ some Value.null ∧
        gaPartialPayload.hasKey "first_activation_customer_id" = true ∧
        gaPartialPayload.get "first_activation_customer_id" ≠ some Value.null ∧
        gaPartialPayload.hasKey "first_activation_timestamp" = true ∧
        gaPartialPayload.get "first_activation_timestamp" ≠ some Value.null) ∨
       (gaPartialPayload.hasKey "first_activation_table" = false ∧
        gaPartialPayload.hasKey "first_activation_customer_id" = false ∧
        gaPartialPayload.hasKey "first_activation_timestamp" = false)) := by
  refine ⟨by rfl, by decide⟩

/-- C2 amended: the groups are all-or-nothing at the level of *keys* — the
three activation keys (resp. the two date-spine keys) are present together
or absent together, and the group's table key itself is never null — but
the companion members may carry `null` values when only the table key was
supplied. -/
theorem C2_amended_groups (params : Params) (pl : Payload)
    (h : buildVars "growth_accounting" params = .ok pl) :
    (pl.hasKey "first_activation_table" = pl.hasKey "first_activation_customer_id") ∧
    (pl.hasKey "first_activation_table" = pl.hasKey "first_activation_timestamp") ∧
    (pl.hasKey "date_spine_table" = pl.hasKey "date_spine_column") ∧
    (pl.hasKey "first_activation_table" = true →
      pl.get "first_activation_table" ≠ some Value.null) ∧
    (pl.hasKey "date_spine_table" = true →
      pl.get "date_spine_table" ≠ some Value.null) := by
  cases e1 : params.getItem "activity_table" with
  | error e => simp [buildVars, e1, Except.bind] at h
  | ok v1 =>
  cases e2 : params.getItem "activity_customer_id" with
  | error e => simp [buildVars, e1, e2, Except.bind] at h
  | ok v2 =>
  cases e3 : params.getItem "activity_timestamp" with
  | error e => simp [buildVars, e1, e2, e3, Except.bind] at h
  | ok v3 =>
  by_cases hfa : truthy (params.get "first_activation_table") = true
  · obtain ⟨fav, hfav⟩ : ∃ s, params.get "first_activation_table" = some s := by
      cases hg : params.get "first_activation_table" with
      | none => rw [hg] at hfa; simp [truthy] at hfa
      | some s => exact ⟨s, rfl⟩
    by_cases hds : truthy (params.get "date_spine_table") = true
    · obtain ⟨dsv, hdsv⟩ : ∃ s, params.get "date_spine_table" = some s := by
        cases hg : params.get "date_spine_table" with
        | none => rw [hg] at hds; simp [truthy] at hds
        | some s => exact ⟨s, rfl⟩
      simp [buildVars, e1, e2, e3, Except.bind, hfa, hds] at h
      subst h
      simp [Payload.hasKey, Payload.get, hfav, hdsv, optValue]
    · simp [buildVars, e1, e2, e3, Except.bind, hfa, hds] at h
      subst h
      simp [Payload.hasKey, Payload.get, hfav, optValue]
  · by_cases hds : truthy (params.get "date_spine_table") = true
    · obtain ⟨dsv, hdsv⟩ : ∃ s, params.get "date_spine_table" = some s := by
        cases hg : params.get "date_spine_table" with
        | none => rw [hg] at hds; simp [truthy] at hds
        | some s => exact ⟨s, rfl⟩
      simp [buildVars, e1, e2, e3, Except.bind, hfa, hds] at h
      subst h
      simp [Payload.hasKey, Payload.get, hdsv, optValue]
    · simp [buildVars, e1, e2, e3, Except.bind, hfa, hds] at h
      subst h
      simp [Payload.hasKey, Payload.get]

/-- C2 witness: the key-level all-or-nothing rule evaluated on the partial
activation group. -/
theorem C2_amended_groups_witness :
    (gaPartialPayload.hasKey "first_activation_table" =
      gaPartialPayload.hasKey "first_activation_customer_id") ∧
    (gaPartialPayload.hasKey "first_activation_table" =
      gaPartialPayload.hasKey "first_activation_timestamp") ∧
    (gaPartialPayload.hasKey "date_spine_table" =
      gaPartialPayload.hasKey "date_spine_column") ∧
    (gaPartialPayload.hasKey "first_activation_table" = true →
      gaPartialPayload.get "first_activation_table" ≠ some Value.null) ∧
    (gaPartialPayload.hasKey "date_spine_table" = true →
      gaPartialPayload.get "date_spine_table" ≠ some Value.null) :=
  C2_amended_groups gaPartialParams gaPartialPayload (by rfl)

/-! ### Claim C3: unset keys in the serialized payload -/

/-- A cumulative-snapshot parameter map with the six required fields and
`metric_type = "count"`, but no `metric_column`. -/
def csCountParams : Params :=
  [("snapshot_table", "user_snapshot"), ("fact_table", "user_events"),
   ("key_column", "user_id"), ("period_column", "dt"),
   ("prev_period", "p0"), ("curr_period", "p1"), ("metric_type", "count")]

set_option maxRecDepth 16384 in
/-- C3 counterexample: for cumulative_snapshot with `metric_type = count`
and no `metric_column`, the payload *does* carry the key `metric_column`
with value `null`, and the serialized JSON contains `"metric_column": null`
instead of omitting the key. -/
theorem C3_counterexample :
    (buildVars "cumulative_snapshot" csCountParams).map
        (fun pl => (pl.hasKey "metric_column", pl.get "metric_column")) =
      .ok (true, some Value.null) ∧
    (buildVars "cumulative_snapshot" csCountParams).map
        (fun pl => containsSub (serializePayload pl).data ("\"metric_column\": null").data) =
      .ok true := by
  refine ⟨by rfl, by rfl⟩

/-- C3 amended: growth-accounting's optional group keys are genuinely
omitted when the group is not supplied, but cumulative_snapshot always
emits the key `metric_column`, with value `null` when no metric column was
supplied — it is null-filled, not omitted. -/
theorem C3_amended_unset_keys :
    (∀ (params : Params) (pl : Payload), buildVars "growth_accounting" params = .ok pl →
      truthy (params.get "first_activation_table") = false →
      pl.hasKey "first_activation_table" = false ∧
      pl.hasKey "first_activation_customer_id" = false ∧
      pl.hasKey "first_activation_timestamp" = false) ∧
    (∀ (params : Params) (pl : Payload), buildVars "growth_accounting" params = .ok pl →
      truthy (params.get "date_spine_table") = false →
      pl.hasKey "date_spine_table" = false ∧ pl.hasKey "date_spine_column" = false) ∧
    (∀ (params : Params) (pl : Payload), buildVars "cumulative_snapshot" params = .ok pl →
      pl.hasKey "metric_column" = true ∧
      (params.get "metric_column" = none → pl.get "metric_column" = some Value.null)) := by
  refine ⟨?_, ?_, ?_⟩
  · intro params pl h hfa
    cases e1 : params.getItem "activity_table" with
    | error e => simp [buildVars, e1, Except.bind] at h
    | ok v1 =>
    cases e2 : params.getItem "activity_customer_id" with
    | error e => simp [buildVars, e1, e2, Except.bind] at h
    | ok v2 =>
    cases e3 : params.getItem "activity_timestamp" with
    | error e => simp [buildVars, e1, e2, e3, Except.bind] at h
    | ok v3 =>
    by_cases hds : truthy (params.get "date_spine_table") = true
    · simp [buildVars, e1, e2, e3, Except.bind, hfa, hds] at h
      subst h
      simp [Payload.hasKey]
    · simp [buildVars, e1, e2, e3, Except.bind, hfa, hds] at h
      subst h
      simp [Payload.hasKey]
  · intro params pl h hds
    cases e1 : params.getItem "activity_table" with
    | error e => simp [buildVars, e1, Except.bind] at h
    | ok v1 =>
    cases e2 : params.getItem "activity_customer_id" with
    | error e => simp [buildVars, e1, e2, Except.bind] at h
    | ok v2 =>
    cases e3 : params.getItem "activity_timestamp" with
    | error e => simp [buildVars, e1, e2, e3, Except.bind] at h
    | ok v3 =>
    by_cases hfa : truthy (params.get "first_activation_table") = true
    · simp [buildVars, e1, e2, e3, Except.bind, hfa, hds] at h
      subst h
      simp [Payload.hasKey]
    · simp [buildVars, e1, e2, e3, Except.bind, hfa, hds] at h
      subst h
      simp [Payload.hasKey]
  · intro params pl h
    cases e1 : params.getItem "snapshot_table" with
    | error e => simp [buildVars, e1, Except.bind] at h
    | ok v1 =>
    cases e2 : params.getItem "fact_table" with
    | error e => simp [buildVars, e1, e2, Except.bind] at h
    | ok v2 =>
    cases e3 : params.getItem "key_column" with
    | error e => simp [buildVars, e1, e2, e3, Except.bind] at h
    | ok v3 =>
    cases e4 : params.getItem "period_column" with
    | error e => simp [buildVars, e1, e2, e3, e4, Except.bind] at h
    | ok v4 =>
    cases e5 : params.getItem "prev_period" with
    | error e => simp [buildVars, e1, e2, e3, e4, e5, Except.bind] at h
    | ok v5 =>
    cases e6 : params.getItem "curr_period" with
    | error e => simp [buildVars, e1, e2, e3, e4, e5, e6, Except.bind] at h
    | ok v6 =>
    simp [buildVars, e1, e2, e3, e4, e5, e6, Except.bind] at h
    subst h
    refine ⟨by simp [Payload.hasKey], ?_⟩
    intro hmc
    simp [Payload.get, hmc, optValue]

/-- A growth-accounting parameter map with only the required fields. -/
def gaReqParams : Params :=
  [("activity_table", "t"), ("activity_customer_id", "c"), ("activity_timestamp", "ts")]

/-- The payload `_build_vars` produces for `gaReqParams`. -/
def gaReqPayload : Payload :=
  [("activity_table", .str "t"), ("activity_customer_id", .str "c"),
   ("activity_timestamp", .str "ts"), ("time_grain", .str "MONTH")]

/-- C3 witness: the omit/null-fill rules at concrete inputs. -/
theorem C3_amended_unset_keys_witness :
    (gaReqPayload.hasKey "first_activation_table" = false ∧
     gaReqPayload.hasKey "first_activation_customer_id" = false ∧
     gaReqPayload.hasKey "first_activation_timestamp" = false) ∧
    (gaReqPayload.hasKey "date_spine_table" = false ∧
     gaReqPayload.hasKey "date_spine_column" = false) :=
  ⟨C3_amended_unset_keys.1 gaReqParams gaReqPayload (by rfl) (by rfl),
   C3_amended_unset_keys.2.1 gaReqParams gaReqPayload (by rfl) (by rfl)⟩

end PatternPlay

namespace PatternPlay

/-! ## The compile bridge (`SchemaAnalytics.generate_sql`, src/core.py
lines 76–110)

The external `dbt` process and the filesystem are parameters: `runProc`
maps the full argv to the `CompletedProcess` outcome, `readFile` maps a
path to the text read back. -/

/-- The fields of `subprocess.CompletedProcess` that `generate_sql` uses. -/
structure ToolResult where
  returncode : Int
  stdout : String
  stderr : String

/-- The argv of the `dbt compile` invocation. -/
def dbtCompileArgs (projectDir pattern vars : String) : List String :=
  ["dbt", "compile", "--project-dir", projectDir, "--profiles-dir", projectDir,
   "--models", pattern, "--vars", vars]

/-- `os.path.join(project_dir, "target", "compiled", "dbt_milkyway",
"models", f"{pattern}.sql")`. -/
def compiledPath (projectDir pattern : String) : String :=
  projectDir ++ "/target/compiled/dbt_milkyway/models/" ++ pattern ++ ".sql"

/-- What `generate_sql` can raise: the propagated `_build_vars` error, or
the `RuntimeError(result.stderr)` on a nonzero exit. -/
inductive GenError where
  | buildError (e : BuildError)
  | compilationFailed (stderr : String)
deriving Repr

/-- Embedding of `SchemaAnalytics.generate_sql`: build the vars, run
`dbt compile` on exactly the selected model with them, raise the stderr on
nonzero exit, otherwise read back the compiled artifact verbatim. -/
def generate_sql (runProc : List String → ToolResult) (readFile : String → String)
    (pattern : String) (params : Params) (projectDir : String) : Except GenError String :=
  match buildVars pattern params with
  | .error e => .error (.buildError e)
  | .ok payload =>
    let result := runProc (dbtCompileArgs projectDir pattern (serializePayload payload))
    if result.returncode ≠ 0 then .error (.compilationFailed result.stderr)
    else .ok (readFile (compiledPath projectDir pattern))

/-- C6: once the variables resolve, `generate_sql` consults the external
tool only at the compile invocation for the selected pattern with the
serialized variables; a nonzero exit surfaces that invocation's stderr
unchanged, and a zero exit returns verbatim the file at the path derived
from the project directory and the pattern name. -/
theorem C6_generate_sql_bridge (runProc : List String → ToolResult)
    (readFile : String → String) (pattern : String) (params : Params)
    (projectDir : String) (payload : Payload)
    (hok : buildVars pattern params = .ok payload) :
    ((runProc (dbtCompileArgs projectDir pattern (serializePayload payload))).returncode ≠ 0 →
      generate_sql runProc readFile pattern params projectDir =
        .error (.compilationFailed
          (runProc (dbtCompileArgs projectDir pattern (serializePayload payload))).stderr)) ∧
    ((runProc (dbtCompileArgs projectDir pattern (serializePayload payload))).returncode = 0 →
      generate_sql runProc readFile pattern params projectDir =
        .ok (readFile (compiledPath projectDir pattern))) ∧
    (∀ runProc2 : List String → ToolResult,
      runProc2 (dbtCompileArgs projectDir pattern (serializePayload payload)) =
        runProc (dbtCompileArgs projectDir pattern (serializePayload payload)) →
      generate_sql runProc2 readFile pattern params projectDir =
        generate_sql runProc readFile pattern params projectDir) := by
  refine ⟨?_, ?_, ?_⟩
  · intro hrc
    simp [generate_sql, hok, hrc]
  · intro hrc
    simp [generate_sql, hok, hrc]
  · intro runProc2 heq
    simp [generate_sql, hok, heq]

/-- C6 witness: a failing run surfaces the stderr; a succeeding run returns
the artifact text at the derived path. -/
theorem C6_generate_sql_bridge_witness :
    generate_sql (fun _ => ⟨1, "", "boom"⟩) (fun _ => "SELECT 1") "retention"
      [("source_table", "s"), ("customer_id", "c"), ("activity_timestamp", "t")]
      "dbt_milkyway" = .error (.compilationFailed "boom") ∧
    generate_sql (fun _ => ⟨0, "", ""⟩)
      (fun p => if p == "dbt_milkyway/target/compiled/dbt_milkyway/models/retention.sql"
        then "SELECT 1" else "missing") "retention"
      [("source_table", "s"), ("customer_id", "c"), ("activity_timestamp", "t")]
      "dbt_milkyway" = .ok "SELECT 1" := by
  constructor
  · exact (C6_generate_sql_bridge _ _ _ _ _ _ (by rfl)).1 (by decide)
  · exact (C6_generate_sql_bridge _ _ _ _ _ _ (by rfl)).2.1 (by decide)

end PatternPlay
